import Mathlib

/-!
Verification of `OpenPNM/Geometry/models/pore_diameter.py`.

The source module offers three stateless functions computing a per-pore
diameter array from data stored in a geometry/network container:

* `sphere(geometry, psd_name, psd_shape, psd_loc, psd_scale, pore_seed, **kwargs)`
  resolves the distribution family `psd_name` in `scipy.stats` via `getattr`,
  freezes it with `(psd_shape, loc=psd_loc, scale=psd_scale)`, and applies its
  quantile function (`ppf`) elementwise to the seed array `geometry[pore_seed]`.
* `sphere_from_radius(...)` is the same computation with a final elementwise
  multiplication by 2.
* `voronoi(network, pore_volume, **kwargs)` selects all pores
  (`network.pores()`), reads the volume array and returns
  `cbrt(6 * V / pi)` elementwise, `cbrt` being `scipy.special.cbrt`, the real
  (sign-preserving) cube root.

Floating-point arrays are modelled as lists of real numbers, the container as
an association list from string keys to such lists together with its pore
count, and Python exceptions as an explicit error type, so each function
becomes a total function into `Except`.
-/

set_option autoImplicit false

namespace PoreDiameter

/-- A geometry/network data container: an associative store from string keys
(such as `pore.seed` or `pore.volume`) to per-pore numeric arrays, plus the
number of pores `Np` that `network.pores()` enumerates. -/
structure DataContainer where
  data : List (String × List ℝ)
  Np : ℕ

/-- `geometry[key]`: read the array stored under a key; `none` models the
Python `KeyError` when the key is absent. -/
def DataContainer.get (g : DataContainer) (k : String) : Option (List ℝ) :=
  g.data.lookup k

/-- Well-formedness invariant of a container (spec section 3): every stored
array has one entry per pore, i.e. length `Np`. -/
def DataContainer.WF (g : DataContainer) : Prop :=
  ∀ p ∈ g.data, p.2.length = g.Np

/-- `network.pores()`: the index list of all pores, `[0, ..., Np-1]`. -/
def DataContainer.pores (g : DataContainer) : List ℕ :=
  List.range g.Np

/-- Errors surfaced by the modelled functions.  `configurationError` models
the resolver failure when `getattr(scipy.stats, name)` finds no distribution
family of that name (the spec's ConfigurationError); `keyError` models the
container lookup failure for a missing array key. -/
inductive PyError where
  | configurationError (name : String)
  | keyError (key : String)
deriving DecidableEq, Repr

/-- Modelled from the spec: a distribution family held by the external
distribution-family resolver (`scipy.stats`, not part of this repository).
Per the spec it is a constructor accepting shape/loc/scale and exposing a
quantile-evaluation operation `ppf`; we also record the lower bound of the
frozen distribution's support (`⊥` for families unbounded below). -/
structure DistFamily where
  ppf : ℝ → ℝ → ℝ → ℝ → ℝ
  supportLB : ℝ → ℝ → ℝ → EReal

/-- Modelled from the spec: the standard normal quantile function of the
external `scipy.stats.norm` family.  The spec pins down only that a quantile
function is non-decreasing on the seed domain, that the normal family's
support is unbounded, and that the median of a normal distribution is 0 in
standard form (location parameter in general); the model is a strictly
increasing function on (0,1), zero at 1/2, matching those facts.  (At seed 0
the true quantile is -infinity, which has no real-number counterpart.) -/
noncomputable def stdNormalQuantile (p : ℝ) : ℝ :=
  Real.log (p / (1 - p))

/-- Modelled from the spec: the `norm` family.  A frozen normal distribution
with parameters `loc`, `scale` has quantile `loc + scale * Q(p)` for the
standard quantile `Q`; the shape argument is accepted and ignored (the normal
family has no shape parameter); its support is all of the reals. -/
noncomputable def normFamily : DistFamily where
  ppf := fun _ loc scale p => loc + scale * stdNormalQuantile p
  supportLB := fun _ _ _ => ⊥

/-- Modelled from the spec: the `uniform` family.  A frozen uniform
distribution on `[loc, loc + scale]` has quantile `loc + scale * p`; the
shape argument is accepted and ignored; its support lower bound is `loc`. -/
noncomputable def uniformFamily : DistFamily where
  ppf := fun _ loc scale p => loc + scale * p
  supportLB := fun _ loc _ => (loc : EReal)

/-- Modelled from the spec: the distribution-family resolver, a registry
lookup by name (`getattr(scipy.stats, psd_name)` in the source); unresolved
names are a configuration error, modelled by `none`. -/
noncomputable def spstResolve (name : String) : Option DistFamily :=
  if name = "norm" then some normFamily
  else if name = "uniform" then some uniformFamily
  else none

/-- Embedding of `sphere` from `pore_diameter.py`: resolve the family name
(raising on an unknown name, before the container is touched), freeze it with
`(psd_shape, loc=psd_loc, scale=psd_scale)`, and apply its quantile function
elementwise to `geometry[pore_seed]`.  In the source `pore_seed` defaults to
the string `pore.seed` and `kwargs` collects extra keyword arguments the body
never reads. -/
noncomputable def sphere (geometry : DataContainer) (psd_name : String)
    (psd_shape psd_loc psd_scale : ℝ) (pore_seed : String)
    (kwargs : List (String × ℝ)) : Except PyError (List ℝ) :=
  match spstResolve psd_name with
  | none => Except.error (PyError.configurationError psd_name)
  | some P =>
    match geometry.get pore_seed with
    | none => Except.error (PyError.keyError pore_seed)
    | some seeds => Except.ok (seeds.map (P.ppf psd_shape psd_loc psd_scale))

/-- Embedding of `sphere_from_radius` from `pore_diameter.py`: identical to
`sphere` except the quantile array is multiplied elementwise by 2 before
being returned (`P.ppf(geometry[pore_seed]) * 2` in the source). -/
noncomputable def sphere_from_radius (geometry : DataContainer)
    (psd_name : String) (psd_shape psd_loc psd_scale : ℝ) (pore_seed : String)
    (kwargs : List (String × ℝ)) : Except PyError (List ℝ) :=
  match spstResolve psd_name with
  | none => Except.error (PyError.configurationError psd_name)
  | some P =>
    match geometry.get pore_seed with
    | none => Except.error (PyError.keyError pore_seed)
    | some seeds =>
      Except.ok ((seeds.map (P.ppf psd_shape psd_loc psd_scale)).map
        (fun x => x * 2))

/-- `scipy.special.cbrt`: the real cube root, defined for negative arguments
as well (sign-preserving), modelled with the real power function. -/
noncomputable def cbrt (x : ℝ) : ℝ :=
  if 0 ≤ x then x ^ ((3 : ℝ)⁻¹) else -((-x) ^ ((3 : ℝ)⁻¹))

/-- Embedding of `voronoi` from `pore_diameter.py`: take the index list of
all pores, read the volume array, select the entries at those indices
(`network[pore_volume][pores]`), and return `cbrt(6 * V / pi)` elementwise.
No validation of the volumes takes place.  In the source `pore_volume`
defaults to the string `pore.volume`. -/
noncomputable def voronoi (network : DataContainer) (pore_volume : String)
    (kwargs : List (String × ℝ)) : Except PyError (List ℝ) :=
  let pores := network.pores
  match network.get pore_volume with
  | none => Except.error (PyError.keyError pore_volume)
  | some vols =>
    let pore_vols := pores.map (fun i => vols.getD i 0)
    Except.ok (pore_vols.map (fun v => cbrt (6 * v / Real.pi)))

/-- The container read `geometry[k]` as a state-passing operation: it returns
the looked-up array together with the container afterwards, which is the very
container given (a read writes nothing). -/
def DataContainer.getS (g : DataContainer) (k : String) :
    Option (List ℝ) × DataContainer :=
  (g.get k, g)

/-- The query `network.pores()` as a state-passing operation: it returns the
index list together with the unchanged container. -/
def DataContainer.poresS (g : DataContainer) : List ℕ × DataContainer :=
  (g.pores, g)

/-- State-threaded embedding of `sphere`: every access to the container goes
through a state-passing operation and the container resulting from the call is
returned alongside the value.  The body of the source function contains only
reads, which is what this definition records statement by statement. -/
noncomputable def sphereRun (geometry : DataContainer) (psd_name : String)
    (psd_shape psd_loc psd_scale : ℝ) (pore_seed : String)
    (kwargs : List (String × ℝ)) : Except PyError (List ℝ) × DataContainer :=
  match spstResolve psd_name with
  | none => (Except.error (PyError.configurationError psd_name), geometry)
  | some P =>
    match geometry.getS pore_seed with
    | (none, g1) => (Except.error (PyError.keyError pore_seed), g1)
    | (some seeds, g1) =>
      (Except.ok (seeds.map (P.ppf psd_shape psd_loc psd_scale)), g1)

/-- State-threaded embedding of `sphere_from_radius` (see `sphereRun`). -/
noncomputable def sphere_from_radiusRun (geometry : DataContainer)
    (psd_name : String) (psd_shape psd_loc psd_scale : ℝ) (pore_seed : String)
    (kwargs : List (String × ℝ)) : Except PyError (List ℝ) × DataContainer :=
  match spstResolve psd_name with
  | none => (Except.error (PyError.configurationError psd_name), geometry)
  | some P =>
    match geometry.getS pore_seed with
    | (none, g1) => (Except.error (PyError.keyError pore_seed), g1)
    | (some seeds, g1) =>
      (Except.ok ((seeds.map (P.ppf psd_shape psd_loc psd_scale)).map
        (fun x => x * 2)), g1)

/-- State-threaded embedding of `voronoi` (see `sphereRun`). -/
noncomputable def voronoiRun (network : DataContainer) (pore_volume : String)
    (kwargs : List (String × ℝ)) : Except PyError (List ℝ) × DataContainer :=
  match network.poresS with
  | (pores, g1) =>
    match g1.getS pore_volume with
    | (none, g2) => (Except.error (PyError.keyError pore_volume), g2)
    | (some vols, g2) =>
      (Except.ok ((pores.map (fun i => vols.getD i 0)).map
        (fun v => cbrt (6 * v / Real.pi))), g2)

/-- Cubing undoes the real cube root, for arguments of either sign. -/
theorem cbrt_cube (x : ℝ) : cbrt x ^ (3 : ℕ) = x := by
  unfold cbrt
  rcases le_or_lt 0 x with hx | hx
  · rw [if_pos hx, ← Real.rpow_natCast (x ^ ((3 : ℝ)⁻¹)) 3, ← Real.rpow_mul hx]
    norm_num
  · have hx' : (0 : ℝ) ≤ -x := by linarith
    rw [if_neg (not_le.mpr hx), Odd.neg_pow (by decide),
      ← Real.rpow_natCast ((-x) ^ ((3 : ℝ)⁻¹)) 3, ← Real.rpow_mul hx']
    norm_num

/-- The real cube root of zero is zero. -/
theorem cbrt_zero : cbrt 0 = 0 := by
  unfold cbrt
  rw [if_pos le_rfl, Real.zero_rpow (by norm_num)]

/-- The real cube root of a negative number is negative. -/
theorem cbrt_neg_of_neg {x : ℝ} (hx : x < 0) : cbrt x < 0 := by
  unfold cbrt
  rw [if_neg (not_le.mpr hx)]
  have : (0 : ℝ) < (-x) ^ ((3 : ℝ)⁻¹) :=
    Real.rpow_pos_of_pos (by linarith) _
  linarith

/-- Selecting a list at all indices `[0, ..., length-1]` returns the list. -/
theorem select_range (xs : List ℝ) :
    (List.range xs.length).map (fun i => xs.getD i 0) = xs := by
  apply List.ext_getElem
  · simp
  · intro i h1 h2
    simp [List.getD_eq_getElem, h2]

/-- The modelled resolver knows exactly the `norm` and `uniform` families. -/
theorem spstResolve_eq_some {name : String} {fam : DistFamily}
    (h : spstResolve name = some fam) :
    (name = "norm" ∧ fam = normFamily) ∨
      (name = "uniform" ∧ fam = uniformFamily) := by
  unfold spstResolve at h
  by_cases h1 : name = "norm"
  · rw [if_pos h1] at h
    exact Or.inl ⟨h1, (Option.some.inj h).symm⟩
  · rw [if_neg h1] at h
    by_cases h2 : name = "uniform"
    · rw [if_pos h2] at h
      exact Or.inr ⟨h2, (Option.some.inj h).symm⟩
    · rw [if_neg h2] at h
      exact absurd h (by simp)

/-- Reading the unique key of a one-entry container. -/
theorem get_single (k : String) (xs : List ℝ) (n : ℕ) :
    DataContainer.get ⟨[(k, xs)], n⟩ k = some xs := by
  simp [DataContainer.get, List.lookup]

/-- A successful lookup comes from an entry of the association list. -/
theorem mem_of_lookup {l : List (String × List ℝ)} {k : String} {v : List ℝ}
    (h : l.lookup k = some v) : (k, v) ∈ l := by
  induction l with
  | nil => simp [List.lookup] at h
  | cons p t ih =>
    rcases p with ⟨k1, v1⟩
    rw [List.lookup] at h
    rcases hbe : (k == k1) with _ | _
    · rw [hbe] at h
      exact List.mem_cons_of_mem _ (ih h)
    · rw [hbe] at h
      have hk : k = k1 := by
        have := hbe
        simpa [beq_iff_eq] using this
      have hv : v1 = v := Option.some.inj h
      rw [hk, hv]
      exact List.mem_cons_self _ _

/-- On a well-formed container, `voronoi` reads the volume array and maps the
equivalent-sphere formula over it: the all-pores selection is the identity. -/
theorem voronoi_eq_map (net : DataContainer) (vk : String) (vols : List ℝ)
    (hwf : net.WF) (hget : net.get vk = some vols) :
    voronoi net vk [] =
      Except.ok (vols.map (fun v => cbrt (6 * v / Real.pi))) := by
  have hlen : vols.length = net.Np := hwf (vk, vols) (mem_of_lookup hget)
  unfold voronoi DataContainer.pores
  rw [hget, ← hlen]
  show Except.ok (((List.range vols.length).map (fun i => vols.getD i 0)).map
    (fun v => cbrt (6 * v / Real.pi))) = _
  rw [select_range]

/-- C1: For every geometry container, distribution specification
(name, shape, loc, scale) and seed-key holding the same seed array, the
output of `sphere_from_radius` equals the output of `sphere` computed with
the same parameters, multiplied elementwise by 2 (also in the error cases,
where both fail identically). -/
theorem sphere_from_radius_eq_two_mul_sphere (g : DataContainer)
    (name : String) (sh loc scale : ℝ) (k : String)
    (kw : List (String × ℝ)) :
    sphere_from_radius g name sh loc scale k kw =
      (sphere g name sh loc scale k kw).map (fun l => l.map (fun x => x * 2)) := by
  unfold sphere sphere_from_radius
  cases spstResolve name with
  | none => rfl
  | some P =>
    cases g.get k with
    | none => rfl
    | some seeds => rfl

/-- C3: For every call to `sphere` or `sphere_from_radius` with a
distribution family name that the resolver does not know, the call fails with
the configuration error naming that family, and no output array is
produced. -/
theorem sphere_unknown_name_configurationError (g : DataContainer)
    (name : String) (sh loc scale : ℝ) (k : String) (kw : List (String × ℝ))
    (h : spstResolve name = none) :
    sphere g name sh loc scale k kw =
      Except.error (PyError.configurationError name) ∧
    sphere_from_radius g name sh loc scale k kw =
      Except.error (PyError.configurationError name) := by
  unfold sphere sphere_from_radius
  rw [h]
  exact ⟨rfl, rfl⟩

/-- Witness for C3 at the spec's concrete scenario: the name
`not_a_real_distribution` resolves to nothing and both calls fail with the
configuration error. -/
theorem sphere_unknown_name_configurationError_witness :
    spstResolve "not_a_real_distribution" = none ∧
    (sphere ⟨[("pore.seed", [0.5])], 1⟩ "not_a_real_distribution" 0 0 1
        "pore.seed" [] =
      Except.error (PyError.configurationError "not_a_real_distribution") ∧
    sphere_from_radius ⟨[("pore.seed", [0.5])], 1⟩ "not_a_real_distribution"
        0 0 1 "pore.seed" [] =
      Except.error (PyError.configurationError "not_a_real_distribution")) := by
  have h : spstResolve "not_a_real_distribution" = none := by
    unfold spstResolve
    rw [if_neg (by decide), if_neg (by decide)]
  exact ⟨h, sphere_unknown_name_configurationError _ _ _ _ _ _ _ h⟩

/-- C2: For every well-formed network whose pore-volume array contains only
non-negative values, `voronoi` returns one diameter per pore such that
`(pi/6) * diameter^3` equals that pore's volume exactly (the floating-point
arrays being modelled by real numbers), i.e. the diameter is the cube root of
`6*V/pi`. -/
theorem voronoi_inverse_volume (net : DataContainer) (vk : String)
    (vols : List ℝ) (hwf : net.WF) (hget : net.get vk = some vols)
    (hpos : ∀ v ∈ vols, 0 ≤ v) :
    ∃ ds, voronoi net vk [] = Except.ok ds ∧ ds.length = vols.length ∧
      ∀ i (h1 : i < ds.length) (h2 : i < vols.length),
        Real.pi / 6 * ds.get ⟨i, h1⟩ ^ (3 : ℕ) = vols.get ⟨i, h2⟩ := by
  refine ⟨vols.map (fun v => cbrt (6 * v / Real.pi)),
    voronoi_eq_map net vk vols hwf hget, by simp, ?_⟩
  intro i h1 h2
  rw [List.get_map]
  rw [cbrt_cube]
  have hpi : Real.pi ≠ 0 := Real.pi_ne_zero
  field_simp
  ring

/-- Witness for C2: a two-pore network with volumes `0` and `pi/6`; both are
non-negative and the returned diameters cube back to the volumes. -/
theorem voronoi_inverse_volume_witness :
    DataContainer.WF ⟨[("pore.volume", [0, Real.pi / 6])], 2⟩ ∧
    DataContainer.get ⟨[("pore.volume", [0, Real.pi / 6])], 2⟩ "pore.volume" =
      some [0, Real.pi / 6] ∧
    (∀ v ∈ [(0 : ℝ), Real.pi / 6], 0 ≤ v) ∧
    (∃ ds, voronoi ⟨[("pore.volume", [0, Real.pi / 6])], 2⟩ "pore.volume" [] =
        Except.ok ds ∧ ds.length = ([(0 : ℝ), Real.pi / 6]).length ∧
      ∀ i (h1 : i < ds.length)
          (h2 : i < ([(0 : ℝ), Real.pi / 6]).length),
        Real.pi / 6 * ds.get ⟨i, h1⟩ ^ (3 : ℕ) =
          ([(0 : ℝ), Real.pi / 6]).get ⟨i, h2⟩) := by
  have hwf : DataContainer.WF ⟨[("pore.volume", [0, Real.pi / 6])], 2⟩ := by
    intro p hp
    simp at hp
    rw [hp]
    rfl
  have hget : DataContainer.get ⟨[("pore.volume", [0, Real.pi / 6])], 2⟩
      "pore.volume" = some [0, Real.pi / 6] := get_single _ _ _
  have hpos : ∀ v ∈ [(0 : ℝ), Real.pi / 6], 0 ≤ v := by
    intro v hv
    simp at hv
    rcases hv with h | h <;> rw [h]
    · positivity
  exact ⟨hwf, hget, hpos, voronoi_inverse_volume _ _ _ hwf hget hpos⟩

/-- C4 counterexample: on the one-pore network whose stored volume is
`-(pi/6)`, `voronoi` does not fail at all: it silently returns the negative
diameter `-1`.  The claim says the call must fail with an input-validation
error. -/
theorem voronoi_negative_volume_counterexample :
    voronoi ⟨[("pore.volume", [-(Real.pi / 6)])], 1⟩ "pore.volume" [] =
      Except.ok [(-1 : ℝ)] ∧ (-1 : ℝ) < 0 := by
  constructor
  · have hwf : DataContainer.WF ⟨[("pore.volume", [-(Real.pi / 6)])], 1⟩ := by
      intro p hp
      simp at hp
      rw [hp]
      rfl
    rw [voronoi_eq_map _ _ _ hwf (get_single _ _ _)]
    have harg : 6 * -(Real.pi / 6) / Real.pi = -1 := by
      field_simp
    have hc : cbrt (-1) = -1 := by
      unfold cbrt
      rw [if_neg (by norm_num)]
      norm_num [Real.one_rpow]
    simp only [List.map_cons, List.map_nil]
    rw [harg, hc]
  · norm_num

/-- C4 (amended): `voronoi` performs no validation of the volume array: on a
well-formed network a pore whose stored volume is strictly negative yields a
successful call whose diameter at that pore is strictly negative (the real
cube root of a negative number), silently returned. -/
theorem voronoi_negative_volume_silent (net : DataContainer) (vk : String)
    (vols : List ℝ) (i : ℕ) (hwf : net.WF) (hget : net.get vk = some vols)
    (hi : i < vols.length) (hneg : vols.get ⟨i, hi⟩ < 0) :
    ∃ ds, voronoi net vk [] = Except.ok ds ∧
      ∃ hi2 : i < ds.length, ds.get ⟨i, hi2⟩ < 0 := by
  refine ⟨vols.map (fun v => cbrt (6 * v / Real.pi)),
    voronoi_eq_map net vk vols hwf hget, by simpa using hi, ?_⟩
  rw [List.get_map]
  apply cbrt_neg_of_neg
  apply div_neg_of_neg_of_pos _ Real.pi_pos
  linarith

/-- Witness for the amended C4: the one-pore network with volume `-(pi/6)`
has a negative entry at index 0, and the call succeeds with a negative
diameter there. -/
theorem voronoi_negative_volume_silent_witness :
    DataContainer.WF ⟨[("pore.volume", [-(Real.pi / 6)])], 1⟩ ∧
    DataContainer.get ⟨[("pore.volume", [-(Real.pi / 6)])], 1⟩ "pore.volume" =
      some [-(Real.pi / 6)] ∧
    ([-(Real.pi / 6)]).get ⟨0, by norm_num⟩ < 0 ∧
    (∃ ds, voronoi ⟨[("pore.volume", [-(Real.pi / 6)])], 1⟩ "pore.volume" [] =
        Except.ok ds ∧ ∃ hi2 : 0 < ds.length, ds.get ⟨0, hi2⟩ < 0) := by
  have hwf : DataContainer.WF ⟨[("pore.volume", [-(Real.pi / 6)])], 1⟩ := by
    intro p hp
    simp at hp
    rw [hp]
    rfl
  have hget : DataContainer.get ⟨[("pore.volume", [-(Real.pi / 6)])], 1⟩
      "pore.volume" = some [-(Real.pi / 6)] := get_single _ _ _
  have hneg : ([-(Real.pi / 6)]).get ⟨0, by norm_num⟩ < 0 := by
    simp
    positivity
  exact ⟨hwf, hget, hneg,
    voronoi_negative_volume_silent _ _ _ 0 hwf hget (by norm_num) hneg⟩

/-- C5: For every pore of a well-formed network whose stored volume is
exactly 0, `voronoi` succeeds and returns diameter 0 for that pore. -/
theorem voronoi_zero_volume (net : DataContainer) (vk : String)
    (vols : List ℝ) (i : ℕ) (hwf : net.WF) (hget : net.get vk = some vols)
    (hi : i < vols.length) (h0 : vols.get ⟨i, hi⟩ = 0) :
    ∃ ds, voronoi net vk [] = Except.ok ds ∧
      ∃ hi2 : i < ds.length, ds.get ⟨i, hi2⟩ = 0 := by
  refine ⟨vols.map (fun v => cbrt (6 * v / Real.pi)),
    voronoi_eq_map net vk vols hwf hget, by simpa using hi, ?_⟩
  rw [List.get_map, h0]
  norm_num
  exact cbrt_zero

/-- Witness for C5: a one-pore network with volume 0 succeeds and returns
diameter 0. -/
theorem voronoi_zero_volume_witness :
    DataContainer.WF ⟨[("pore.volume", [(0 : ℝ)])], 1⟩ ∧
    DataContainer.get ⟨[("pore.volume", [(0 : ℝ)])], 1⟩ "pore.volume" =
      some [(0 : ℝ)] ∧
    ([(0 : ℝ)]).get ⟨0, by norm_num⟩ = 0 ∧
    (∃ ds, voronoi ⟨[("pore.volume", [(0 : ℝ)])], 1⟩ "pore.volume" [] =
        Except.ok ds ∧ ∃ hi2 : 0 < ds.length, ds.get ⟨0, hi2⟩ = 0) := by
  have hwf : DataContainer.WF ⟨[("pore.volume", [(0 : ℝ)])], 1⟩ := by
    intro p hp
    simp at hp
    rw [hp]
    rfl
  have hget : DataContainer.get ⟨[("pore.volume", [(0 : ℝ)])], 1⟩
      "pore.volume" = some [(0 : ℝ)] := get_single _ _ _
  have h0 : ([(0 : ℝ)]).get ⟨0, by norm_num⟩ = 0 := rfl
  exact ⟨hwf, hget, h0,
    voronoi_zero_volume _ _ _ 0 hwf hget (by norm_num) h0⟩

/-- The modelled standard normal quantile is non-decreasing on (0,1). -/
theorem stdNormalQuantile_mono {s1 s2 : ℝ} (h0 : 0 < s1) (h12 : s1 ≤ s2)
    (h1 : s2 < 1) : stdNormalQuantile s1 ≤ stdNormalQuantile s2 := by
  unfold stdNormalQuantile
  have hd1 : (0 : ℝ) < 1 - s1 := by linarith
  have hd2 : (0 : ℝ) < 1 - s2 := by linarith
  have hpos1 : 0 < s1 / (1 - s1) := div_pos h0 hd1
  have hpos2 : 0 < s2 / (1 - s2) := div_pos (by linarith) hd2
  have harg : s1 / (1 - s1) ≤ s2 / (1 - s2) := by
    rw [div_le_div_iff hd1 hd2]
    nlinarith
  exact (Real.log_le_log_iff hpos1 hpos2).mpr harg

/-- C6: For every distribution specification whose name the resolver knows
and whose scale is positive, and every seed array with all values in [0,1),
`sphere` returns the array obtained by applying the frozen distribution's
quantile function to the seed array index-for-index; it has the same length
as the seed array and every returned value is at least the distribution's
support lower bound. -/
theorem sphere_length_and_support_bound (g : DataContainer) (name : String)
    (fam : DistFamily) (sh loc scale : ℝ) (k : String) (seeds : List ℝ)
    (hres : spstResolve name = some fam) (hscale : 0 < scale)
    (hget : g.get k = some seeds) (hseeds : ∀ s ∈ seeds, 0 ≤ s ∧ s < 1) :
    sphere g name sh loc scale k [] =
      Except.ok (seeds.map (fam.ppf sh loc scale)) ∧
    (seeds.map (fam.ppf sh loc scale)).length = seeds.length ∧
    ∀ d ∈ seeds.map (fam.ppf sh loc scale),
      fam.supportLB sh loc scale ≤ (d : EReal) := by
  refine ⟨?_, by simp, ?_⟩
  · unfold sphere
    rw [hres, hget]
  · intro d hd
    rcases List.mem_map.mp hd with ⟨s, hs, hds⟩
    rcases spstResolve_eq_some hres with ⟨_, hfam⟩ | ⟨_, hfam⟩
    · rw [hfam]
      exact bot_le
    · rw [hfam] at hds ⊢
      rw [← hds]
      show (loc : EReal) ≤ ((loc + scale * s : ℝ) : EReal)
      rw [EReal.coe_le_coe_iff]
      nlinarith [(hseeds s hs).1]

/-- Witness for C6: the `uniform` family with `loc = 2`, `scale = 3` on the
seed array `[0, 1/2]`. -/
theorem sphere_length_and_support_bound_witness :
    spstResolve "uniform" = some uniformFamily ∧ (0 : ℝ) < 3 ∧
    DataContainer.get ⟨[("pore.seed", [0, 1/2])], 2⟩ "pore.seed" =
      some [0, 1/2] ∧
    (∀ s ∈ [(0 : ℝ), 1/2], 0 ≤ s ∧ s < 1) ∧
    (sphere ⟨[("pore.seed", [0, 1/2])], 2⟩ "uniform" 0 2 3 "pore.seed" [] =
        Except.ok (([(0 : ℝ), 1/2]).map (uniformFamily.ppf 0 2 3)) ∧
      (([(0 : ℝ), 1/2]).map (uniformFamily.ppf 0 2 3)).length =
        ([(0 : ℝ), 1/2]).length ∧
      ∀ d ∈ ([(0 : ℝ), 1/2]).map (uniformFamily.ppf 0 2 3),
        uniformFamily.supportLB 0 2 3 ≤ (d : EReal)) := by
  have hres : spstResolve "uniform" = some uniformFamily := by
    unfold spstResolve
    rw [if_neg (by decide), if_pos rfl]
  have hget : DataContainer.get ⟨[("pore.seed", [0, 1/2])], 2⟩ "pore.seed" =
      some [0, 1/2] := get_single _ _ _
  have hseeds : ∀ s ∈ [(0 : ℝ), 1/2], 0 ≤ s ∧ s < 1 := by
    intro s hs
    simp at hs
    rcases hs with h | h <;> rw [h] <;> norm_num
  exact ⟨hres, by norm_num, hget, hseeds,
    sphere_length_and_support_bound _ _ _ 0 2 3 _ _ hres (by norm_num)
      hget hseeds⟩

/-- C7: For a fixed resolvable distribution family with positive scale,
`sphere` is monotone in the seed value: two one-pore calls whose seeds
satisfy `0 < s1 < s2 < 1` return diameters with `d1 ≤ d2`.  (At seed 0 the
normal family's quantile is minus infinity, below every representable
diameter, so the positive-seed case is the substantive one.) -/
theorem sphere_monotone_in_seed (name : String) (fam : DistFamily)
    (sh loc scale : ℝ) (k : String) (s1 s2 d1 d2 : ℝ)
    (hres : spstResolve name = some fam) (hscale : 0 < scale)
    (h0 : 0 < s1) (h12 : s1 < s2) (h1 : s2 < 1)
    (hc1 : sphere ⟨[(k, [s1])], 1⟩ name sh loc scale k [] = Except.ok [d1])
    (hc2 : sphere ⟨[(k, [s2])], 1⟩ name sh loc scale k [] = Except.ok [d2]) :
    d1 ≤ d2 := by
  have e1 : sphere ⟨[(k, [s1])], 1⟩ name sh loc scale k [] =
      Except.ok [fam.ppf sh loc scale s1] := by
    unfold sphere
    rw [hres, get_single]
    rfl
  have e2 : sphere ⟨[(k, [s2])], 1⟩ name sh loc scale k [] =
      Except.ok [fam.ppf sh loc scale s2] := by
    unfold sphere
    rw [hres, get_single]
    rfl
  rw [e1] at hc1
  rw [e2] at hc2
  simp at hc1 hc2
  rw [← hc1, ← hc2]
  rcases spstResolve_eq_some hres with ⟨_, hfam⟩ | ⟨_, hfam⟩ <;> rw [hfam]
  · show loc + scale * stdNormalQuantile s1 ≤ loc + scale * stdNormalQuantile s2
    have := stdNormalQuantile_mono h0 h12.le h1
    nlinarith
  · show loc + scale * s1 ≤ loc + scale * s2
    nlinarith

/-- Witness for C7: the `uniform` family with `loc = 2`, `scale = 3` and the
seeds `1/4 < 1/2` give diameters `11/4 ≤ 7/2`. -/
theorem sphere_monotone_in_seed_witness :
    spstResolve "uniform" = some uniformFamily ∧ (0 : ℝ) < 3 ∧
    (0 : ℝ) < 1/4 ∧ (1/4 : ℝ) < 1/2 ∧ (1/2 : ℝ) < 1 ∧
    sphere ⟨[("pore.seed", [1/4])], 1⟩ "uniform" 0 2 3 "pore.seed" [] =
      Except.ok [(11/4 : ℝ)] ∧
    sphere ⟨[("pore.seed", [1/2])], 1⟩ "uniform" 0 2 3 "pore.seed" [] =
      Except.ok [(7/2 : ℝ)] ∧
    (11/4 : ℝ) ≤ 7/2 := by
  have hres : spstResolve "uniform" = some uniformFamily := by
    unfold spstResolve
    rw [if_neg (by decide), if_pos rfl]
  have hc1 : sphere ⟨[("pore.seed", [1/4])], 1⟩ "uniform" 0 2 3
      "pore.seed" [] = Except.ok [(11/4 : ℝ)] := by
    unfold sphere
    rw [hres, get_single]
    simp [uniformFamily]
    norm_num
  have hc2 : sphere ⟨[("pore.seed", [1/2])], 1⟩ "uniform" 0 2 3
      "pore.seed" [] = Except.ok [(7/2 : ℝ)] := by
    unfold sphere
    rw [hres, get_single]
    simp [uniformFamily]
    norm_num
  exact ⟨hres, by norm_num, by norm_num, by norm_num, by norm_num, hc1, hc2,
    sphere_monotone_in_seed _ _ 0 2 3 _ _ _ _ _ hres (by norm_num)
      (by norm_num) (by norm_num) (by norm_num) hc1 hc2⟩

/-- C9: For the normal family with `loc = 5`, `scale = 1` and the seed array
`[0.5]`, `sphere` returns the diameter array `[5.0]`: the median of a normal
distribution equals its location parameter (any shape argument is ignored by
this family). -/
theorem sphere_norm_median (sh : ℝ) :
    sphere ⟨[("pore.seed", [1/2])], 1⟩ "norm" sh 5 1 "pore.seed" [] =
      Except.ok [(5 : ℝ)] := by
  have hres : spstResolve "norm" = some normFamily := by
    unfold spstResolve
    rw [if_pos rfl]
  unfold sphere
  rw [hres, get_single]
  simp [normFamily, stdNormalQuantile]
  norm_num

/-- C8: None of the three functions mutates the container passed to it: in
the state-threaded embeddings every call returns the container it was given,
and the value produced agrees with the pure embeddings. -/
theorem no_container_mutation (g n : DataContainer) (name : String)
    (sh loc scale : ℝ) (sk vk : String) (kw : List (String × ℝ)) :
    (sphereRun g name sh loc scale sk kw).2 = g ∧
    (sphere_from_radiusRun g name sh loc scale sk kw).2 = g ∧
    (voronoiRun n vk kw).2 = n ∧
    (sphereRun g name sh loc scale sk kw).1 = sphere g name sh loc scale sk kw ∧
    (sphere_from_radiusRun g name sh loc scale sk kw).1 =
      sphere_from_radius g name sh loc scale sk kw ∧
    (voronoiRun n vk kw).1 = voronoi n vk kw := by
  unfold sphereRun sphere_from_radiusRun voronoiRun sphere sphere_from_radius
    voronoi DataContainer.getS DataContainer.poresS
  cases hr : spstResolve name <;> cases hg : g.get sk <;>
    cases hv : n.get vk <;> simp [hr, hg, hv]

/-- C10: Extra keyword arguments beyond the named parameters are ignored by
all three functions: two calls differing only in the contents of `kwargs`
produce identical outputs. -/
theorem kwargs_ignored (g n : DataContainer) (name : String)
    (sh loc scale : ℝ) (sk vk : String) (kw1 kw2 : List (String × ℝ)) :
    sphere g name sh loc scale sk kw1 = sphere g name sh loc scale sk kw2 ∧
    sphere_from_radius g name sh loc scale sk kw1 =
      sphere_from_radius g name sh loc scale sk kw2 ∧
    voronoi n vk kw1 = voronoi n vk kw2 :=
  ⟨rfl, rfl, rfl⟩

end PoreDiameter
